import Mathlib

/-!
Verification of the trip-video-queue ingestion service.

This file gives a shallow embedding, in Lean 4, of the parts of the
repository that the specification talks about:

* the in-memory dedup cache of `src/handlers/message.handlers.ts`
  (`processedMessages`, `isDuplicateMessage`, the cleanup interval);
* URL extraction (`extractVideoUrl` with its seven ordered regex patterns);
* the MongoDB service (`saveVideoSuggestion`, `markAsPublished`,
  `getMongoErrorMessage`);
* the RabbitMQ service (`publishVideoSuggestion`, `getRabbitMQErrorMessage`);
* the per-message ingestion pipeline (`handleMessagesUpsert`);
* the WhatsApp connection-resilience manager (`getReconnectDelay`,
  `scheduleReconnect`, the `connection.update` listener, and the fallback
  `handleConnectionUpdate`).

Asynchronous effects (store writes, queue publishes, outbound sends) are
modelled as explicit state passing over a `PState` world; failures of the
external collaborators are injected through an explicit environment, and
JavaScript exceptions are modelled as an `Option String` escape channel.
-/

namespace TripVideoQueue

/-! ## Dedup cache (`message.handlers.ts`, lines 18-43) -/

/-- Retention window of the dedup cache in milliseconds
(`CACHE_DURATION = 5 * 60 * 1000`). -/
def CACHE_DURATION : Nat := 5 * 60 * 1000

/-- Period of the cleanup `setInterval` in milliseconds
(`CLEANUP_INTERVAL = 60 * 1000`). -/
def CLEANUP_INTERVAL : Nat := 60 * 1000

/-- The `processedMessages` map: dedup key to timestamp of first sighting. -/
abbrev DedupCache := List (String × Nat)

/-- `processedMessages.has(key)`. -/
def cacheHas (cache : DedupCache) (k : String) : Bool :=
  cache.any (fun e => e.1 == k)

/-- `isDuplicateMessage`: if the key is present the message is a duplicate
and the cache is unchanged; otherwise the key is recorded with the current
time (`processedMessages.set(messageId, Date.now())`) and the message is
processed.  Returns `(isDuplicate, updated cache)`. -/
def isDuplicateMessage (cache : DedupCache) (messageId : String) (now : Nat) :
    Bool × DedupCache :=
  if cacheHas cache messageId then (true, cache)
  else (false, cache ++ [(messageId, now)])

/-- One firing of the cleanup interval: delete every entry whose age is
strictly greater than `CACHE_DURATION` (`if (now - timestamp > CACHE_DURATION)
processedMessages.delete(key)`). -/
def cleanupCache (cache : DedupCache) (now : Nat) : DedupCache :=
  cache.filter (fun e => !(decide (now - e.2 > CACHE_DURATION)))

/-! ## URL extraction (`message.handlers.ts`, lines 49-80)

`extractVideoUrl` tries seven case-insensitive regex patterns in order and
returns the first match, with one trailing punctuation character removed
(`url.replace(/[.,!?;]$/, '')`).  Each pattern is embedded as a matcher
`List Char → Option (List Char)` that consumes a match at the head of its
input and returns the remainder; `findFirstFrom` then scans for the leftmost
position at which the matcher succeeds, which is the semantics of
`text.match(pattern)` for a regex without the `g` flag.  Greedy `?` groups
are implemented with explicit backtracking (`optLit`); in every pattern the
regex continuation after a `+` character class starts with a character that
the class cannot match, so the maximal-munch `classPlus` coincides with the
JavaScript backtracking semantics. -/

/-- The character set of the JavaScript regex class `\s`. -/
def jsSpace (c : Char) : Bool :=
  c == ' ' || c == '\t' || c == '\n' || c == '\r' ||
  c == '\x0b' || c == '\x0c' || c == ' ' || c == ' ' ||
  (decide (' ' ≤ c) && decide (c ≤ ' ')) || c == ' ' ||
  c == ' ' || c == ' ' || c == ' ' || c == '　' ||
  c == '﻿'

/-- The class `[a-zA-Z0-9_-]`. -/
def isUrlTailChar (c : Char) : Bool := c.isAlphanum || c == '_' || c == '-'

/-- The class `[a-zA-Z0-9._]` (TikTok user names). -/
def isTiktokNameChar (c : Char) : Bool := c.isAlphanum || c == '.' || c == '_'

/-- The class `[a-zA-Z0-9_]` (Twitter/X user names). -/
def isTwitterNameChar (c : Char) : Bool := c.isAlphanum || c == '_'

/-- Case-insensitive character comparison (the patterns carry the `i` flag). -/
def lowerEq (a b : Char) : Bool := a.toLower == b.toLower

/-- Case-insensitively consume the literal `pat` from the front of the text,
returning the remainder. -/
def ciDrop : List Char → List Char → Option (List Char)
  | [], cs => some cs
  | _ :: _, [] => none
  | p :: ps, c :: cs => if lowerEq p c then ciDrop ps cs else none

/-- Greedy one-or-more repetition of a character class: requires at least one
class character and then consumes the maximal run. -/
def classPlus (p : Char → Bool) : List Char → Option (List Char)
  | [] => none
  | c :: cs => if p c then some (cs.dropWhile p) else none

/-- Greedy optional literal group `(pat)?` followed by continuation `k`:
first try consuming the literal and running `k`, then backtrack to running
`k` without it. -/
def optLit (pat : List Char) (k : List Char → Option (List Char))
    (cs : List Char) : Option (List Char) :=
  ((ciDrop pat cs).bind k) <|> k cs

/-- The scheme prefix `https?:\/\/`: literal `http`, greedy optional `s`,
then `://`. -/
def matchHttpScheme (cs : List Char) : Option (List Char) :=
  (ciDrop "http".data cs).bind (fun cs1 =>
    (match cs1 with
     | c :: cs2 => if lowerEq 's' c then ciDrop "://".data cs2 else none
     | [] => none) <|> ciDrop "://".data cs1)

/-- Body of pattern 1 after `https?:\/\/(www\.)?`:
`youtube\.com\/shorts\/[a-zA-Z0-9_-]+|youtu\.be\/[a-zA-Z0-9_-]+`. -/
def ytShortsBody (cs : List Char) : Option (List Char) :=
  ((ciDrop "youtube.com/shorts/".data cs).bind (classPlus isUrlTailChar)) <|>
  ((ciDrop "youtu.be/".data cs).bind (classPlus isUrlTailChar))

/-- Pattern 1 (YouTube Shorts). -/
def matchYoutubeShorts (cs : List Char) : Option (List Char) :=
  (matchHttpScheme cs).bind (optLit "www.".data ytShortsBody)

/-- Body of pattern 2:
`youtube\.com\/watch\?v=[a-zA-Z0-9_-]+|youtu\.be\/[a-zA-Z0-9_-]+`. -/
def ytWatchBody (cs : List Char) : Option (List Char) :=
  ((ciDrop "youtube.com/watch?v=".data cs).bind (classPlus isUrlTailChar)) <|>
  ((ciDrop "youtu.be/".data cs).bind (classPlus isUrlTailChar))

/-- Pattern 2 (YouTube normal). -/
def matchYoutubeWatch (cs : List Char) : Option (List Char) :=
  (matchHttpScheme cs).bind (optLit "www.".data ytWatchBody)

/-- Body of pattern 3:
`tiktok\.com\/@[a-zA-Z0-9._]+\/video\/[0-9]+|vm\.tiktok\.com\/[a-zA-Z0-9]+`. -/
def tiktokBody (cs : List Char) : Option (List Char) :=
  (((ciDrop "tiktok.com/@".data cs).bind (classPlus isTiktokNameChar)).bind
      (fun cs1 => (ciDrop "/video/".data cs1).bind (classPlus Char.isDigit))) <|>
  ((ciDrop "vm.tiktok.com/".data cs).bind (classPlus Char.isAlphanum))

/-- Pattern 3 (TikTok). -/
def matchTiktok (cs : List Char) : Option (List Char) :=
  (matchHttpScheme cs).bind (optLit "www.".data tiktokBody)

/-- `\/[a-zA-Z0-9_-]+` after the `(reel|p)` alternation of pattern 4. -/
def instaAfterKind (cs : List Char) : Option (List Char) :=
  (ciDrop "/".data cs).bind (classPlus isUrlTailChar)

/-- Body of pattern 4: `instagram\.com\/(reel|p)\/[a-zA-Z0-9_-]+`. -/
def instaBody (cs : List Char) : Option (List Char) :=
  (ciDrop "instagram.com/".data cs).bind (fun cs1 =>
    ((ciDrop "reel".data cs1).bind instaAfterKind) <|>
    ((ciDrop "p".data cs1).bind instaAfterKind))

/-- Pattern 4 (Instagram Reels). -/
def matchInstagram (cs : List Char) : Option (List Char) :=
  (matchHttpScheme cs).bind (optLit "www.".data instaBody)

/-- `\?v=[0-9]+` after `facebook\.com\/watch\/?` in pattern 5. -/
def fbWatchTail (cs : List Char) : Option (List Char) :=
  (ciDrop "?v=".data cs).bind (classPlus Char.isDigit)

/-- Body of pattern 5:
`facebook\.com\/watch\/?\?v=[0-9]+|fb\.watch\/[a-zA-Z0-9_-]+`. -/
def facebookBody (cs : List Char) : Option (List Char) :=
  ((ciDrop "facebook.com/watch".data cs).bind (optLit "/".data fbWatchTail)) <|>
  ((ciDrop "fb.watch/".data cs).bind (classPlus isUrlTailChar))

/-- Pattern 5 (Facebook Watch). -/
def matchFacebook (cs : List Char) : Option (List Char) :=
  (matchHttpScheme cs).bind (optLit "www.".data facebookBody)

/-- `\/[a-zA-Z0-9_]+\/status\/[0-9]+` after the host alternation of
pattern 6. -/
def twitterTail (cs : List Char) : Option (List Char) :=
  (((ciDrop "/".data cs).bind (classPlus isTwitterNameChar)).bind
    (fun cs1 => (ciDrop "/status/".data cs1).bind (classPlus Char.isDigit)))

/-- Body of pattern 6: `(twitter\.com|x\.com)\/[a-zA-Z0-9_]+\/status\/[0-9]+`. -/
def twitterBody (cs : List Char) : Option (List Char) :=
  ((ciDrop "twitter.com".data cs).bind twitterTail) <|>
  ((ciDrop "x.com".data cs).bind twitterTail)

/-- Pattern 6 (Twitter/X video). -/
def matchTwitter (cs : List Char) : Option (List Char) :=
  (matchHttpScheme cs).bind (optLit "www.".data twitterBody)

/-- Pattern 7, the generic fallback `https?:\/\/[^\s]+`. -/
def matchGenericUrl (cs : List Char) : Option (List Char) :=
  (matchHttpScheme cs).bind (classPlus (fun c => !jsSpace c))

/-- Leftmost match: scan positions left to right and return the substring
consumed by the matcher at the first position where it succeeds
(the semantics of `text.match(re)` for regexes without `g`). -/
def findFirstFrom (m : List Char → Option (List Char)) :
    List Char → Option (List Char)
  | [] => (m []).map (fun _ => ([] : List Char))
  | cs@(_ :: rest) =>
    match m cs with
    | some remainder => some (cs.take (cs.length - remainder.length))
    | none => findFirstFrom m rest

/-- The punctuation class of `url.replace(/[.,!?;]$/, '')`. -/
def isTrailPunct (c : Char) : Bool :=
  c == '.' || c == ',' || c == '!' || c == '?' || c == ';'

/-- `url.replace(/[.,!?;]$/, '')`: remove at most one trailing punctuation
character. -/
def stripTrailingPunct (u : List Char) : List Char :=
  match u.getLast? with
  | some c => if isTrailPunct c then u.dropLast else u
  | none => u

/-- The ordered pattern list of `extractVideoUrl`. -/
def urlMatchers : List (List Char → Option (List Char)) :=
  [matchYoutubeShorts, matchYoutubeWatch, matchTiktok, matchInstagram,
   matchFacebook, matchTwitter, matchGenericUrl]

/-- The `for (const pattern of patterns)` loop of `extractVideoUrl`. -/
def extractGo : List (List Char → Option (List Char)) → List Char → Option String
  | [], _ => none
  | m :: ms, cs =>
    match findFirstFrom m cs with
    | some matched => some (String.mk (stripTrailingPunct matched))
    | none => extractGo ms cs

/-- `extractVideoUrl`: first pattern match, trimmed of one trailing
punctuation character, or `null`. -/
def extractVideoUrl (text : String) : Option String :=
  extractGo urlMatchers text.data

/-! ## MongoDB service (`mongodb.service.ts`)

The store is a list of documents; the unique index on `messageId` is
modelled inside `insertOne`.  Failures of the driver (connection, TLS,
network) are injected as the raw error string they would carry; the
uniqueness violation (`error.code === 11000`) arises from the store content
itself. -/

/-- The `status` enum of a `VideoSuggestion`. -/
inductive VStatus
  | pending
  | processing
  | completed
  | failed
deriving DecidableEq, Repr

/-- A stored `VideoSuggestion` document (timestamps in epoch ms). -/
structure VideoDoc where
  url : String
  texto : String
  sugeridoPor : String
  messageId : String
  chatId : String
  timestamp : Nat
  status : VStatus
  publishedToQueue : Bool
  iaProcess : Bool
  createdAt : Nat
  publishedAt : Option Nat
deriving DecidableEq, Repr

/-- The argument of `saveVideoSuggestion`:
`Omit<VideoSuggestion, '_id' | 'publishedToQueue' | 'iaProcess' | 'createdAt'>`. -/
structure SaveData where
  url : String
  texto : String
  sugeridoPor : String
  messageId : String
  chatId : String
  timestamp : Nat
  status : VStatus
deriving DecidableEq, Repr

/-- The `video_suggestions` collection. -/
abbrev Store := List VideoDoc

/-- Does `needle` stand at the head of `hay`? -/
def listLeads : List Char → List Char → Bool
  | [], _ => true
  | _ :: _, [] => false
  | p :: ps, c :: cs => p == c && listLeads ps cs

/-- Does `needle` occur anywhere in `hay`? -/
def listHasSub (needle : List Char) : List Char → Bool
  | [] => needle.isEmpty
  | hay@(_ :: t) => listLeads needle hay || listHasSub needle t

/-- `hay.includes(needle)` on strings. -/
def strHasSub (hay needle : String) : Bool := listHasSub needle.data hay.data

/-- `s.substring(0, n)`. -/
def strTake (s : String) (n : Nat) : String := String.mk (s.data.take n)

/-- `s.toLowerCase()` (character-wise; the tokens compared in this codebase
are ASCII). -/
def strLower (s : String) : String := String.mk (s.data.map Char.toLower)

/-- `s.toUpperCase()` (character-wise). -/
def strUpper (s : String) : String := String.mk (s.data.map Char.toUpper)

/-- `s.trim()`: strip whitespace from both ends. -/
def strTrim (s : String) : String :=
  String.mk (((s.data.dropWhile jsSpace).reverse.dropWhile jsSpace).reverse)

/-- `getMongoErrorMessage`: classify a raw driver error string into a short
human-readable cause. -/
def getMongoErrorMessage (errorString : String) : String :=
  if strHasSub errorString "SSL" || strHasSub errorString "TLS" ||
      strHasSub errorString "tlsv1" then
    "🔴 [MONGODB] Erro de certificado SSL/TLS ao conectar com MongoDB Atlas. Verifique: 1) Conexão com internet, 2) IP autorizado no Atlas, 3) Certificados do sistema"
  else if strHasSub errorString "Authentication" || strHasSub errorString "auth" then
    "🔴 [MONGODB] Erro de autenticação. Verifique usuário e senha no .env"
  else if strHasSub errorString "ENOTFOUND" || strHasSub errorString "ETIMEDOUT" ||
      strHasSub errorString "ECONNREFUSED" then
    "🔴 [MONGODB] Erro de rede ao conectar com MongoDB. Verifique conexão com internet"
  else if strHasSub errorString "MongoServerSelectionError" then
    "🔴 [MONGODB] Nenhum servidor MongoDB disponível. Verifique: 1) String de conexão, 2) IP autorizado no Atlas, 3) Cluster ativo"
  else
    "🔴 [MONGODB] Erro desconhecido: " ++ strTake errorString 200

/-- `insertOne` against the unique index on `messageId`: a second document
with an already-present id raises the duplicate-key error (code 11000). -/
def insertOne (store : Store) (doc : VideoDoc) : Except Unit Store :=
  if store.any (fun d => d.messageId == doc.messageId) then .error ()
  else .ok (store ++ [doc])

/-- Raw string of the duplicate-key error (`error.code === 11000`). -/
def dupKeyRawError : String :=
  "MongoServerError: E11000 duplicate key error collection: video_suggestions index: messageId_1"

/-- Result of `saveVideoSuggestion`: the returned document (resolved promise)
or the thrown friendly error message, each together with the store after the
call. -/
inductive SaveOutcome
  | ok (doc : VideoDoc) (store : Store)
  | err (msg : String) (store : Store)
deriving DecidableEq, Repr

/-- `saveVideoSuggestion`.  `insertFault` injects a non-duplicate failure of
`connectMongo`/`insertOne` as its raw error string; `findFails` injects a
failure of the `findOne` recovery lookup in the duplicate branch.  On a
duplicate-key violation the pre-existing document is fetched and returned;
every other failure is rethrown as `new Error(getMongoErrorMessage(error))`. -/
def saveVideoSuggestion (insertFault : Option String) (findFails : Bool)
    (store : Store) (data : SaveData) (now : Nat) : SaveOutcome :=
  match insertFault with
  | some rawErr => .err (getMongoErrorMessage rawErr) store
  | none =>
    let doc : VideoDoc :=
      { url := data.url, texto := data.texto, sugeridoPor := data.sugeridoPor,
        messageId := data.messageId, chatId := data.chatId,
        timestamp := data.timestamp, status := data.status,
        publishedToQueue := false, iaProcess := false,
        createdAt := now, publishedAt := none }
    match insertOne store doc with
    | .ok store1 => .ok doc store1
    | .error _ =>
      if findFails then .err (getMongoErrorMessage dupKeyRawError) store
      else
        match store.find? (fun d => d.messageId == data.messageId) with
        | some existing => .ok existing store
        | none => .err (getMongoErrorMessage dupKeyRawError) store

/-- Update the first document satisfying `p` (`updateOne`). -/
def updateFirst (p : VideoDoc → Bool) (f : VideoDoc → VideoDoc) : Store → Store
  | [] => []
  | d :: ds => if p d then f d :: ds else d :: updateFirst p f ds

/-- `markAsPublished(messageId)`: `updateOne({messageId}, {$set:
{publishedToQueue: true, publishedAt: new Date()}})`; a failure is rethrown. -/
def markAsPublished (fault : Option String) (store : Store) (messageId : String)
    (now : Nat) : Except String Store :=
  match fault with
  | some e => .error e
  | none => .ok (updateFirst (fun d => d.messageId == messageId)
      (fun d => { d with publishedToQueue := true, publishedAt := some now }) store)

/-! ## RabbitMQ service (`rabbitMQ.service.ts`) -/

/-- `getRabbitMQErrorMessage`: classify a raw broker error string. -/
def getRabbitMQErrorMessage (errorString : String) : String :=
  if strHasSub errorString "ECONNREFUSED" then
    "🔴 [RABBITMQ] Servidor RabbitMQ não está acessível. Verifique se o serviço está rodando"
  else if strHasSub errorString "ACCESS_REFUSED" || strHasSub errorString "403" then
    "🔴 [RABBITMQ] Erro de autenticação. Verifique usuário e senha no .env"
  else if strHasSub errorString "ETIMEDOUT" then
    "🔴 [RABBITMQ] Timeout ao conectar com RabbitMQ. Verifique conexão de rede"
  else if strHasSub errorString "Channel" || strHasSub errorString "Queue" then
    "🔴 [RABBITMQ] Erro no canal ou fila. O canal pode ter sido fechado"
  else
    "🔴 [RABBITMQ] Erro desconhecido: " ++ strTake errorString 200

/-- The argument of `publishVideoSuggestion`: `{url, texto, sugeridoPor}`. -/
structure PublishPayload where
  url : String
  texto : String
  sugeridoPor : String
deriving DecidableEq, Repr

/-- `JSON.stringify(payload)`, modelled as the ordered field list of the
serialized flat JSON object. -/
def publishPayloadFields (p : PublishPayload) : List (String × String) :=
  [("url", p.url), ("texto", p.texto), ("sugeridoPor", p.sugeridoPor)]

/-- The `video-suggestions` queue: serialized messages in publish order. -/
abbrev Queue := List (List (String × String))

/-- `publishVideoSuggestion`: on success the serialized payload is sent to
the queue; a connection or send failure is rethrown with the classified
message (`fault` injects its raw error string). -/
def publishVideoSuggestion (fault : Option String) (queue : Queue)
    (p : PublishPayload) : Except String Queue :=
  match fault with
  | some rawErr => .error (getRabbitMQErrorMessage rawErr)
  | none => .ok (queue ++ [publishPayloadFields p])

/-! ## Error notification (`error-notification.utils.ts`) -/

/-- The emoji table of `formatErrorForWhatsApp`. -/
def notifEmoji (etype : String) : String :=
  if etype == "MONGODB" then "🗄️"
  else if etype == "RABBITMQ" then "🐰"
  else if etype == "WHATSAPP" then "💬"
  else "⚙️"

/-- `formatErrorForWhatsApp` with the wall-clock timestamp string passed in
explicitly. -/
def formatErrorForWhatsApp (etype operation message timestamp : String) : String :=
  "🚨 *ERRO AO " ++ strUpper operation ++ "*\n\n" ++
  notifEmoji etype ++ " *Serviço:* " ++ etype ++ "\n" ++
  "🕐 *Horário:* " ++ timestamp ++ "\n\n" ++
  "❌ *Erro encontrado:*\n" ++ message

/-! ## Message ingestion pipeline (`message.handlers.ts`)

Each inbound message is processed against a world `PState` (dedup cache,
store, queue, outbound sends).  External failures are injected through a
`PipelineEnv`; an exception escaping the per-message code is returned in the
second component, matching a rejected promise inside the `for` loop. -/

/-- `msg.key`. -/
structure MsgKey where
  remoteJid : Option String
  id : Option String
deriving DecidableEq, Repr

/-- `msg.message` when present. -/
structure MsgBody where
  conversation : Option String
  /-- `extendedTextMessage`, when present, with its optional `text` field. -/
  extendedText : Option (Option String)
  videoMessage : Bool
  imageMessage : Bool
deriving DecidableEq, Repr

/-- An inbound message of a `messages.upsert` batch. -/
structure WMessage where
  key : MsgKey
  body : Option MsgBody
  pushName : Option String
deriving DecidableEq, Repr

/-- JavaScript truthiness of a `string | undefined` value. -/
def jsTruthy : Option String → Bool
  | some s => !s.isEmpty
  | none => false

/-- Template-literal interpolation of a possibly-absent value. -/
def optShow : Option String → String
  | some s => s
  | none => "null"

/-- `a || b || ''` on optional strings. -/
def firstTruthy (a b : Option String) : String :=
  if jsTruthy a then a.getD ""
  else if jsTruthy b then b.getD ""
  else ""

/-- `isAllowedGroup`: `remoteJid === TARGET_GROUP_ID`. -/
def isAllowedGroup (targetGroupId remoteJid : Option String) : Bool :=
  remoteJid == targetGroupId

/-- The call sites of `sock.sendMessage` inside one message's processing. -/
inductive SendSite
  | statusReply
  | statusFallback
  | reactSaveFail
  | notifySaveFail
  | notifyPublishFail
  | reactSuccess
  | reactGenericFail
deriving DecidableEq, Repr

/-- Fault-injection environment for one message's processing: configuration,
wall clock, and the behavior of the external collaborators. -/
structure PipelineEnv where
  /-- `TARGET_GROUP_ID`. -/
  targetGroupId : Option String
  /-- `ERROR_NOTIFICATION_JID || TARGET_GROUP_ID`, already resolved. -/
  errorNotificationJid : Option String
  /-- `Date.now()` in epoch ms. -/
  now : Nat
  /-- Wall-clock text used by `formatErrorForWhatsApp`. -/
  nowText : String
  /-- Raw error of a non-duplicate `saveVideoSuggestion` failure. -/
  saveFault : Option String
  /-- The `findOne` recovery of the duplicate branch fails. -/
  findFails : Bool
  /-- Raw error of a `publishVideoSuggestion` failure. -/
  publishFault : Option String
  /-- Error of a `markAsPublished` failure. -/
  markFault : Option String
  /-- `getSystemStatus` rejects with this error. -/
  statusFault : Option String
  /-- The report `getSystemStatus` resolves to. -/
  statusReport : String
  /-- Which `sock.sendMessage` call sites reject. -/
  sendFails : SendSite → Bool

/-- An outbound side effect on the WhatsApp session. -/
inductive Effect
  | sentText (jid : String) (text : String)
  | sentReact (jid : String) (emoji : String) (key : MsgKey)
deriving DecidableEq, Repr

/-- The mutable world of the pipeline. -/
structure PState where
  cache : DedupCache
  store : Store
  queue : Queue
  effects : List Effect
deriving DecidableEq, Repr

/-- A `sock.sendMessage(jid, {text})` wrapped so a failure is only logged. -/
def trySendText (env : PipelineEnv) (site : SendSite) (jid text : String)
    (s : PState) : PState :=
  if env.sendFails site then s
  else { s with effects := s.effects ++ [.sentText jid text] }

/-- A `sock.sendMessage(jid, {react})` wrapped in `try`: a failing reaction
is logged and swallowed. -/
def trySendReact (env : PipelineEnv) (site : SendSite) (jid emoji : String)
    (key : MsgKey) (s : PState) : PState :=
  if env.sendFails site then s
  else { s with effects := s.effects ++ [.sentReact jid emoji key] }

/-- `sendErrorNotification`: formats and sends the operator notification; a
send failure is caught internally and never rethrown. -/
def sendErrorNotification (env : PipelineEnv) (site : SendSite) (jid : String)
    (etype operation message : String) (s : PState) : PState :=
  if env.sendFails site then s
  else { s with effects := s.effects ++
    [.sentText jid (formatErrorForWhatsApp etype operation message env.nowText)] }

/-- The fallback reply of the status-command `catch` branch. -/
def statusErrorReply : String :=
  "Erro ao obter status do sistema. Verifique os logs para mais detalhes."

/-- `msg.pushName || 'Desconhecido'`. -/
def resolvePushName (pushName : Option String) : String :=
  if jsTruthy pushName then pushName.getD "" else "Desconhecido"

/-- The status-command branch: `try { getSystemStatus(); sendMessage }` with
a `catch` that sends a fixed fallback reply — the fallback send itself is
not wrapped, so its rejection escapes. -/
def processStatusCommand (env : PipelineEnv) (remoteJid : Option String)
    (s : PState) : PState × Option String :=
  match env.statusFault with
  | none =>
    if env.sendFails .statusReply then
      if env.sendFails .statusFallback then (s, some "sendMessage rejected")
      else (trySendText env .statusFallback (remoteJid.getD "") statusErrorReply s, none)
    else (trySendText env .statusReply (remoteJid.getD "") env.statusReport s, none)
  | some e =>
    if env.sendFails .statusFallback then (s, some e)
    else (trySendText env .statusFallback (remoteJid.getD "") statusErrorReply s, none)

/-- Steps 1-4 of the link path: save to MongoDB, publish to the queue, mark
as published, react.  Note that step 3 (`markAsPublished`) runs after the
publish `try/catch` unconditionally, i.e. also when the publish failed. -/
def processLink (env : PipelineEnv) (msg : WMessage) (text pushName url : String)
    (s : PState) : PState × Option String :=
  let remoteJid := msg.key.remoteJid
  let videoData : SaveData :=
    { url := url, texto := text, sugeridoPor := pushName,
      messageId := msg.key.id.getD "", chatId := remoteJid.getD "",
      timestamp := env.now, status := .pending }
  match saveVideoSuggestion env.saveFault env.findFails s.store videoData env.now with
  | .err errMsg store1 =>
    let s1 := { s with store := store1 }
    let s2 := trySendReact env .reactSaveFail (remoteJid.getD "") "❌" msg.key s1
    let s3 := match env.errorNotificationJid with
      | some jid =>
        sendErrorNotification env .notifySaveFail jid "MONGODB"
          "salvar vídeo sugerido" errMsg s2
      | none => s2
    (s3, none)
  | .ok savedDoc store1 =>
    let s1 := { s with store := store1 }
    let s2 := match publishVideoSuggestion env.publishFault s1.queue
        ⟨savedDoc.url, savedDoc.texto, savedDoc.sugeridoPor⟩ with
      | .ok queue1 => { s1 with queue := queue1 }
      | .error errMsg =>
        match env.errorNotificationJid with
        | some jid =>
          sendErrorNotification env .notifyPublishFail jid "RABBITMQ"
            "publicar vídeo na fila" errMsg s1
        | none => s1
    let s3 := match markAsPublished env.markFault s2.store savedDoc.messageId env.now with
      | .ok store2 => { s2 with store := store2 }
      | .error _ => s2
    let s4 := trySendReact env .reactSuccess (remoteJid.getD "") "✅" msg.key s3
    (s4, none)

/-- The text-message path: status command or link extraction.  In the status
branch, a failure of `getSystemStatus` or of the first reply is caught, but
the fallback `sock.sendMessage` of the `catch` block is not itself wrapped:
its rejection escapes the per-message code. -/
def processTextMessage (env : PipelineEnv) (msg : WMessage) (body : MsgBody)
    (s : PState) : PState × Option String :=
  let remoteJid := msg.key.remoteJid
  let text := firstTruthy body.conversation (body.extendedText.bind id)
  let pushName := resolvePushName msg.pushName
  let textLower := strTrim (strLower text)
  if textLower == "status" || textLower == "/status" then
    processStatusCommand env remoteJid s
  else
    match extractVideoUrl text with
    | none => (s, none)
    | some url => processLink env msg text pushName url s

/-- Processing of one message of the batch: content check, dedup, origin
filter, then the text path; media messages are logged no-ops. -/
def processMessage (env : PipelineEnv) (msg : WMessage) (s : PState) :
    PState × Option String :=
  let remoteJid := msg.key.remoteJid
  match msg.body with
  | none => (s, none)
  | some body =>
    let messageId := optShow remoteJid ++ "_" ++ optShow msg.key.id
    match isDuplicateMessage s.cache messageId env.now with
    | (true, cache1) => ({ s with cache := cache1 }, none)
    | (false, cache1) =>
      let s1 := { s with cache := cache1 }
      if !isAllowedGroup env.targetGroupId remoteJid then (s1, none)
      else if jsTruthy body.conversation || body.extendedText.isSome then
        processTextMessage env msg body s1
      else (s1, none)

/-- The `for (const msg of messages)` loop: an exception escaping one
message's processing aborts the loop for the remaining messages.  Each list
element carries the fault-injection environment in force when that message
is handled. -/
def runBatch : List (PipelineEnv × WMessage) → PState → PState × Option String
  | [], s => (s, none)
  | (env, m) :: ms, s =>
    match processMessage env m s with
    | (s1, none) => runBatch ms s1
    | (s1, some e) => (s1, some e)

/-- `handleMessagesUpsert`: the whole loop is wrapped in a `try/catch` whose
handler only logs, so the handler itself never rejects. -/
def handleMessagesUpsert (batch : List (PipelineEnv × WMessage)) (s : PState) :
    PState :=
  (runBatch batch s).1

/-! ## Connection resilience manager (`whatsapp.service.ts` and
`whatsapp.handlers.ts`)

The module-level mutable state (`reconnectAttempts`, `isConnecting`,
`reconnectTimer`, `lastSuccessfulConnection`, `connectionStats`) becomes an
explicit `ReconnectState`; timer creation and the reconnect callbacks become
`ConnAction` values emitted by the event handlers.  `WHATSAPP_CONFIG.reconnect`
is a parameter, since its values are externally configured. -/

/-- `WHATSAPP_CONFIG.reconnect`: base delays and retry ceilings, with the
dedicated 503 (service unavailable) policy. -/
structure ReconnectConfig where
  initialDelay : ℚ
  maxDelay : ℚ
  backoffMultiplier : ℚ
  maxRetries : Nat
  error503InitialDelay : ℚ
  error503MaxRetries : Nat
deriving DecidableEq, Repr

/-- The `connectionStats` record. -/
structure ConnStats where
  totalReconnects : Nat
  error503Count : Nat
  error500Count : Nat
  errorTimeoutCount : Nat
  /-- `lastError`: status code, reason, timestamp. -/
  lastError : Option (Option Nat × String × Nat)
deriving DecidableEq, Repr

/-- A pending `reconnectTimer`. -/
structure PendingTimer where
  delay : ℚ
  statusCode : Option Nat
deriving DecidableEq, Repr

/-- The module-level reconnection state. -/
structure ReconnectState where
  reconnectAttempts : Nat
  isConnecting : Bool
  reconnectTimer : Option PendingTimer
  lastSuccessfulConnection : Option Nat
  stats : ConnStats
deriving DecidableEq, Repr

/-- `getReconnectDelay`: exponential backoff with the 503-specific base
delay, capped at `maxDelay`. -/
def getReconnectDelay (cfg : ReconnectConfig) (isError503 : Bool)
    (reconnectAttempts : Nat) : ℚ :=
  let baseDelay := if isError503 then cfg.error503InitialDelay else cfg.initialDelay
  min (baseDelay * cfg.backoffMultiplier ^ reconnectAttempts) cfg.maxDelay

/-- `getMaxRetries`: the 503-specific retry ceiling. -/
def getMaxRetries (cfg : ReconnectConfig) (isError503 : Bool) : Nat :=
  if isError503 then cfg.error503MaxRetries else cfg.maxRetries

/-- `logErrorStats`: per-cause counters and the total. -/
def logErrorStats (stats : ConnStats) (statusCode : Option Nat) : ConnStats :=
  let stats1 := if statusCode == some 503 then
    { stats with error503Count := stats.error503Count + 1 } else stats
  let stats2 := if statusCode == some 500 then
    { stats1 with error500Count := stats1.error500Count + 1 } else stats1
  { stats2 with totalReconnects := stats2.totalReconnects + 1 }

/-- `resetReconnectState`: zero the attempt count, drop the in-flight flag,
cancel a pending timer. -/
def resetReconnectState (st : ReconnectState) : ReconnectState :=
  { st with reconnectAttempts := 0, isConnecting := false, reconnectTimer := none }

/-- An externally visible action of the resilience manager. -/
inductive ConnAction
  /-- `setTimeout(connectToWhatsApp, delay)` inside `scheduleReconnect`. -/
  | timerSet (delay : ℚ)
  /-- `generateQRCode(qr)`. -/
  | generatedQR (qr : String)
  /-- `clearAuthState()` in the 405 branch. -/
  | clearedAuthState
  /-- `setTimeout(connectToWhatsApp, 3000)` in the 405 branch. -/
  | delayedImmediateReconnect
  /-- `reconnectCallback()` fired by `handleConnectionUpdate`. -/
  | immediateConnect
deriving DecidableEq, Repr

/-- `scheduleReconnect(reason, statusCode)`: a no-op while a connection
attempt is in flight; otherwise clears a pending timer, gives up at the
cause-specific ceiling, and else increments the attempt count and sets one
timer with the backoff delay. -/
def scheduleReconnect (cfg : ReconnectConfig) (st : ReconnectState)
    (reason : String) (statusCode : Option Nat) (now : Nat) :
    ReconnectState × List ConnAction :=
  if st.isConnecting then (st, [])
  else
    let st1 := { st with reconnectTimer := none }
    let isError503 := statusCode == some 503
    let maxRetries := getMaxRetries cfg isError503
    if st1.reconnectAttempts ≥ maxRetries then
      ({ st1 with stats := logErrorStats st1.stats statusCode }, [])
    else
      let st2 := { st1 with
        isConnecting := true,
        reconnectAttempts := st1.reconnectAttempts + 1,
        stats := logErrorStats
          { st1.stats with lastError := some (statusCode, reason, now) } statusCode }
      let delay := getReconnectDelay cfg isError503 st2.reconnectAttempts
      ({ st2 with reconnectTimer := some { delay := delay, statusCode := statusCode } },
       [ConnAction.timerSet delay])

/-- `lastDisconnect.error`, as the handlers read it: whether it is a `Boom`,
its `output.statusCode`, and its `message`. -/
structure DisconnectError where
  isBoom : Bool
  statusCode : Option Nat
  message : String
deriving DecidableEq, Repr

/-- A `connection.update` event payload. -/
structure ConnUpdate where
  qr : Option String
  connection : Option String
  lastDisconnectError : Option DisconnectError
deriving DecidableEq, Repr

/-- `error?.message?.includes('timeout') || error?.message?.includes('Timeout')`. -/
def errMsgHasTimeout : Option DisconnectError → Bool
  | some e => strHasSub e.message "timeout" || strHasSub e.message "Timeout"
  | none => false

/-- `${statusCode || 'desconhecido'}`. -/
def statusCodeText : Option Nat → String
  | some n => toString n
  | none => "desconhecido"

/-- `handleConnectionUpdate` (`whatsapp.handlers.ts`): generate a QR code if
one is attached, and on `close` fire `reconnectCallback()` whenever the error
is a `Boom` whose status code is not `DisconnectReason.loggedOut` (401). -/
def handleConnectionUpdate (update : ConnUpdate) : List ConnAction :=
  let qrActs := if jsTruthy update.qr then
    [ConnAction.generatedQR (update.qr.getD "")] else []
  if update.connection == some "open" then qrActs
  else if update.connection == some "close" then
    let shouldReconnect := match update.lastDisconnectError with
      | some e => e.isBoom && e.statusCode != some 401
      | none => false
    if shouldReconnect then qrActs ++ [ConnAction.immediateConnect] else qrActs
  else qrActs

/-- The `connection.update` listener registered by `connectToWhatsApp`
(`whatsapp.service.ts`): `open` resets the reconnect state and returns;
`close` dispatches on the cause — 401 resets and returns, 405 clears the
session and schedules an immediate reconnect, 503/500/timeout schedule a
backoff reconnect and return — and every remaining cause schedules a backoff
reconnect and then falls through to the original `handleConnectionUpdate`. -/
def onConnectionUpdate (cfg : ReconnectConfig) (st : ReconnectState)
    (update : ConnUpdate) (now : Nat) : ReconnectState × List ConnAction :=
  if update.connection == some "open" then
    (resetReconnectState { st with lastSuccessfulConnection := some now }, [])
  else if update.connection == some "close" then
    let statusCode := update.lastDisconnectError.bind (fun e => e.statusCode)
    if statusCode == some 401 then
      (resetReconnectState st, [])
    else if statusCode == some 405 then
      ({ st with reconnectAttempts := 0 },
       [ConnAction.clearedAuthState, ConnAction.delayedImmediateReconnect])
    else if statusCode == some 503 then
      scheduleReconnect cfg st "Service Unavailable (503)" statusCode now
    else if statusCode == some 500 then
      scheduleReconnect cfg st "Internal Server Error (500)" statusCode now
    else if errMsgHasTimeout update.lastDisconnectError then
      let st1 := { st with stats :=
        { st.stats with errorTimeoutCount := st.stats.errorTimeoutCount + 1 } }
      scheduleReconnect cfg st1 "Connection Timeout" statusCode now
    else
      let (st1, acts1) :=
        if statusCode != some 401 then
          scheduleReconnect cfg st ("Erro " ++ statusCodeText statusCode) statusCode now
        else (st, [])
      (st1, acts1 ++ handleConnectionUpdate update)
  else
    (st, handleConnectionUpdate update)

/-! ## Derived predicates and concrete fixtures -/

/-- Actions that schedule or start a connection attempt. -/
def isReconnectAction : ConnAction → Bool
  | .timerSet _ => true
  | .delayedImmediateReconnect => true
  | .immediateConnect => true
  | _ => false

/-- The condition under which one message's processing can raise an
exception past the per-message boundary: the message is a status command and
the fallback reply of the status `catch` block rejects after the primary
path (`getSystemStatus` or the first reply) has already failed. -/
def statusEscapePossible (env : PipelineEnv) (msg : WMessage) : Bool :=
  match msg.body with
  | none => false
  | some body =>
    let text := firstTruthy body.conversation (body.extendedText.bind id)
    let textLower := strTrim (strLower text)
    (jsTruthy body.conversation || body.extendedText.isSome) &&
    (textLower == "status" || textLower == "/status") &&
    (env.statusFault.isSome || env.sendFails .statusReply) &&
    env.sendFails .statusFallback

/-- The `--not-published` filter of the replay tool
(`publishedToQueue: { $ne: true }`). -/
def replayNotPublished (store : Store) : Store :=
  store.filter (fun d => !d.publishedToQueue)

/-- A fault-free environment: authorized group `g@g.us`, sender display
names resolved, all collaborators healthy. -/
def okEnv : PipelineEnv :=
  { targetGroupId := some "g@g.us", errorNotificationJid := some "g@g.us",
    now := 1000, nowText := "01/01 00:00",
    saveFault := none, findFails := false, publishFault := none,
    markFault := none, statusFault := none, statusReport := "OK",
    sendFails := fun _ => false }

/-- The end-to-end scenario message: Alice shares a YouTube link. -/
def aliceMsg : WMessage :=
  { key := { remoteJid := some "g@g.us", id := some "m1" },
    body := some { conversation := some "check this out https://youtu.be/abc123 !",
                   extendedText := none, videoMessage := false, imageMessage := false },
    pushName := some "Alice" }

/-- A second link message with a fresh id. -/
def aliceMsg2 : WMessage :=
  { aliceMsg with key := { remoteJid := some "g@g.us", id := some "m2" } }

/-- A status-command message. -/
def statusMsg : WMessage :=
  { key := { remoteJid := some "g@g.us", id := some "s1" },
    body := some { conversation := some "status", extendedText := none,
                   videoMessage := false, imageMessage := false },
    pushName := some "Bob" }

/-- The initial empty world. -/
def emptyState : PState := { cache := [], store := [], queue := [], effects := [] }

/-- Healthy store, failing queue publish. -/
def publishFailEnv : PipelineEnv :=
  { okEnv with publishFault := some "connect ECONNREFUSED 127.0.0.1:5672" }

/-- `getSystemStatus` rejects and the fallback reply also rejects. -/
def statusFailEnv : PipelineEnv :=
  { okEnv with statusFault := some "status query failed",
               sendFails := fun site => site == SendSite.statusFallback }

/-- A concrete reconnect configuration (the real values are external). -/
def testCfg : ReconnectConfig :=
  { initialDelay := 5000, maxDelay := 300000, backoffMultiplier := 2,
    maxRetries := 10, error503InitialDelay := 10000, error503MaxRetries := 20 }

/-- A fresh manager state: no attempts, nothing in flight, no timer. -/
def freshConnState : ReconnectState :=
  { reconnectAttempts := 0, isConnecting := false, reconnectTimer := none,
    lastSuccessfulConnection := none,
    stats := { totalReconnects := 0, error503Count := 0, error500Count := 0,
               errorTimeoutCount := 0, lastError := none } }

/-- A close event with a generic Boom cause (status 408, no timeout text). -/
def close408 : ConnUpdate :=
  { qr := none, connection := some "close",
    lastDisconnectError := some { isBoom := true, statusCode := some 408,
                                  message := "Connection was lost" } }

/-- A close event with the logged-out cause (status 401). -/
def close401 : ConnUpdate :=
  { qr := none, connection := some "close",
    lastDisconnectError := some { isBoom := true, statusCode := some 401,
                                  message := "Unauthorized" } }

/-- A close event with the service-unavailable cause (status 503). -/
def close503 : ConnUpdate :=
  { qr := none, connection := some "close",
    lastDisconnectError := some { isBoom := true, statusCode := some 503,
                                  message := "Service Unavailable" } }

/-- A manager state with a connection attempt in flight. -/
def stInFlight : ReconnectState := { freshConnState with isConnecting := true }

/-- Alice's message as delivered from a non-authorized conversation. -/
def strangerMsg : WMessage :=
  { aliceMsg with key := { remoteJid := some "other@g.us", id := some "m9" } }

/-- A document already stored under message id `m1`. -/
def existingDoc : VideoDoc :=
  { url := "https://youtu.be/abc123", texto := "older text",
    sugeridoPor := "Alice", messageId := "m1", chatId := "g@g.us",
    timestamp := 500, status := .pending, publishedToQueue := false,
    iaProcess := false, createdAt := 500, publishedAt := none }

/-- A save request that collides with `existingDoc` on `messageId`. -/
def dupData : SaveData :=
  { url := "https://youtu.be/abc123", texto := "redelivered text",
    sugeridoPor := "Alice", messageId := "m1", chatId := "g@g.us",
    timestamp := 900, status := .pending }

/-- Every collaborator fails, every send rejects — but no status command is
involved. -/
def faultyEnv : PipelineEnv :=
  { okEnv with saveFault := some "ETIMEDOUT",
               publishFault := some "Channel closed",
               markFault := some "ETIMEDOUT",
               sendFails := fun _ => true }

/-- `getSystemStatus` rejects but the fallback reply works. -/
def statusPrimaryFailEnv : PipelineEnv :=
  { okEnv with statusFault := some "queue check failed" }

/-! ## Theorems -/

/-! ### Helper lemmas: outbound sends never touch the cache, store or queue -/

@[simp] theorem trySendText_queue (env : PipelineEnv) (site : SendSite)
    (jid text : String) (s : PState) :
    (trySendText env site jid text s).queue = s.queue := by
  unfold trySendText; split <;> rfl

@[simp] theorem trySendReact_queue (env : PipelineEnv) (site : SendSite)
    (jid emoji : String) (key : MsgKey) (s : PState) :
    (trySendReact env site jid emoji key s).queue = s.queue := by
  unfold trySendReact; split <;> rfl

@[simp] theorem sendErrorNotification_queue (env : PipelineEnv) (site : SendSite)
    (jid etype operation message : String) (s : PState) :
    (sendErrorNotification env site jid etype operation message s).queue = s.queue := by
  unfold sendErrorNotification; split <;> rfl

@[simp] theorem processStatusCommand_queue (env : PipelineEnv)
    (remoteJid : Option String) (s : PState) :
    (processStatusCommand env remoteJid s).1.queue = s.queue := by
  unfold processStatusCommand
  cases env.statusFault <;> (repeat' split) <;> simp

/-- Whatever happens in the link path, the queue is only ever extended, and
only with payloads whose serialized field list is `url`, `texto`,
`sugeridoPor`. -/
theorem processLink_queue (env : PipelineEnv) (msg : WMessage)
    (text pushName url : String) (s : PState) :
    ∃ rest, (processLink env msg text pushName url s).1.queue = s.queue ++ rest ∧
      ∀ p ∈ rest, p.map Prod.fst = ["url", "texto", "sugeridoPor"] := by
  unfold processLink
  cases hsv : saveVideoSuggestion env.saveFault env.findFails s.store
      { url := url, texto := text, sugeridoPor := pushName,
        messageId := msg.key.id.getD "", chatId := msg.key.remoteJid.getD "",
        timestamp := env.now, status := .pending } env.now with
  | err m st1 =>
    refine ⟨[], ?_, by simp⟩
    cases env.errorNotificationJid <;> simp [hsv]
  | ok doc st1 =>
    cases hp : env.publishFault with
    | none =>
      refine ⟨[publishPayloadFields ⟨doc.url, doc.texto, doc.sugeridoPor⟩], ?_, ?_⟩
      · cases hm : env.markFault <;>
          simp [hsv, hp, publishVideoSuggestion, markAsPublished, hm]
      · intro p hmem
        simp at hmem
        subst hmem
        rfl
    | some rawErr =>
      refine ⟨[], ?_, by simp⟩
      cases env.errorNotificationJid <;> cases hm : env.markFault <;>
        simp [hsv, hp, publishVideoSuggestion, markAsPublished, hm]

/-- Lifting of `processLink_queue` through the text path. -/
theorem processTextMessage_queue (env : PipelineEnv) (msg : WMessage)
    (body : MsgBody) (s : PState) :
    ∃ rest, (processTextMessage env msg body s).1.queue = s.queue ++ rest ∧
      ∀ p ∈ rest, p.map Prod.fst = ["url", "texto", "sugeridoPor"] := by
  by_cases hcmd : (strTrim (strLower (firstTruthy body.conversation (body.extendedText.bind fun a => a))) = "status" ∨
      strTrim (strLower (firstTruthy body.conversation (body.extendedText.bind fun a => a))) = "/status")
  · refine ⟨[], ?_, by simp⟩
    simp [processTextMessage, hcmd]
  · cases hx : extractVideoUrl (firstTruthy body.conversation (body.extendedText.bind fun a => a)) with
    | none =>
      refine ⟨[], ?_, by simp⟩
      simp [processTextMessage, hcmd, hx]
    | some url =>
      rcases processLink_queue env msg (firstTruthy body.conversation (body.extendedText.bind fun a => a))
          (resolvePushName msg.pushName) url s with ⟨rest, hq, hk⟩
      refine ⟨rest, ?_, hk⟩
      simpa [processTextMessage, hcmd, hx] using hq

/-- C2 (amended): every payload the ingestion pipeline appends to the queue
is the JSON object with exactly the fields `url`, `texto` (the message text)
and `sugeridoPor` (the sender display name) of the stored record — the
origin message identifier is not part of the queue payload. -/
theorem publish_payload_fields_shape (env : PipelineEnv) (msg : WMessage) (s : PState) :
    ∃ rest, (processMessage env msg s).1.queue = s.queue ++ rest ∧
      ∀ p ∈ rest, p.map Prod.fst = ["url", "texto", "sugeridoPor"] := by
  unfold processMessage
  cases hb : msg.body with
  | none => exact ⟨[], by simp, by simp⟩
  | some body =>
    rcases hd : isDuplicateMessage s.cache
        (optShow msg.key.remoteJid ++ "_" ++ optShow msg.key.id) env.now with ⟨b, cache1⟩
    cases b
    · by_cases hall : isAllowedGroup env.targetGroupId msg.key.remoteJid
      · by_cases htxt : (jsTruthy body.conversation || body.extendedText.isSome) = true
        · rcases processTextMessage_queue env msg body { s with cache := cache1 } with ⟨rest, hq, hk⟩
          exact ⟨rest, by simpa [hd, hall, htxt] using hq, hk⟩
        · exact ⟨[], by simp [hd, hall, htxt], by simp⟩
      · exact ⟨[], by simp [hd, hall], by simp⟩
    · exact ⟨[], by simp [hd], by simp⟩

/-- C4 (amended): an entry younger than the retention window always causes
the redelivered message to be skipped and survives the periodic cleanup; the
cleanup removes exactly the entries strictly older than the window; and once
the key is absent (in particular after a cleanup has removed an expired
entry) a redelivered message is reprocessed and recorded anew.  Between
expiry and the next cleanup run a redelivery is still suppressed, since the
duplicate check tests presence, not age (see the counterexample). -/
theorem dedup_retention_and_cleanup_behavior :
    (∀ (cache : DedupCache) (k : String) (t now : Nat), (k, t) ∈ cache →
        now - t < CACHE_DURATION →
        (isDuplicateMessage cache k now).1 = true ∧ (k, t) ∈ cleanupCache cache now) ∧
    (∀ (cache : DedupCache) (k : String) (t now : Nat), (k, t) ∈ cache →
        ((k, t) ∈ cleanupCache cache now ↔ ¬ (now - t > CACHE_DURATION))) ∧
    (∀ (cache : DedupCache) (k : String) (now : Nat), (∀ t, (k, t) ∉ cache) →
        (isDuplicateMessage cache k now).1 = false ∧
        (k, now) ∈ (isDuplicateMessage cache k now).2) := by
  refine ⟨?_, ?_, ?_⟩
  · intro cache k t now hmem hyoung
    have hhas : cacheHas cache k = true := by
      simp only [cacheHas, List.any_eq_true]
      exact ⟨(k, t), hmem, by simp⟩
    refine ⟨by simp [isDuplicateMessage, hhas], ?_⟩
    simp only [cleanupCache, List.mem_filter]
    exact ⟨hmem, by simp; omega⟩
  · intro cache k t now hmem
    simp [cleanupCache, List.mem_filter, hmem]
  · intro cache k now habs
    have hhas : cacheHas cache k = false := by
      simp only [cacheHas, List.any_eq_false]
      intro e hme
      by_cases he : e.1 = k
      · exfalso
        apply habs e.2
        have hee : e = (k, e.2) := by rw [← he]
        rwa [hee] at hme
      · simp [he]
    constructor
    · simp [isDuplicateMessage, hhas]
    · simp [isDuplicateMessage, hhas]

/-- C4 witness: the three parts of `dedup_retention_and_cleanup_behavior`
instantiated at concrete caches and clocks. -/
theorem dedup_retention_and_cleanup_behavior_witness :
    ((isDuplicateMessage [("g_m1", 0)] "g_m1" 100).1 = true ∧
     ("g_m1", 0) ∈ cleanupCache [("g_m1", 0)] 100) ∧
    (("g_m1", 0) ∈ cleanupCache [("g_m1", 0)] 400000 ↔ ¬ (400000 - 0 > CACHE_DURATION)) ∧
    ((isDuplicateMessage [("g_m1", 0)] "fresh" 100).1 = false ∧
     ("fresh", 100) ∈ (isDuplicateMessage [("g_m1", 0)] "fresh" 100).2) :=
  ⟨dedup_retention_and_cleanup_behavior.1 [("g_m1", 0)] "g_m1" 0 100 (by decide) (by decide),
   dedup_retention_and_cleanup_behavior.2.1 [("g_m1", 0)] "g_m1" 0 400000 (by decide),
   dedup_retention_and_cleanup_behavior.2.2 [("g_m1", 0)] "fresh" 100 (by intro t; simp)⟩

/-- C5: a disconnect event whose cause carries status code 401 resets the
reconnect state (timer cancelled, attempt count zeroed, nothing in flight)
and emits no action at all — in particular it neither schedules a backoff
reconnect nor reaches the fallback `handleConnectionUpdate`; and even the
fallback handler taken alone fires no reconnect action for this event. -/
theorem close401_never_reconnects (cfg : ReconnectConfig) (st : ReconnectState)
    (update : ConnUpdate) (now : Nat)
    (hconn : update.connection = some "close")
    (hcode : update.lastDisconnectError.bind (fun e => e.statusCode) = some 401) :
    (onConnectionUpdate cfg st update now).1.reconnectTimer = none ∧
    (onConnectionUpdate cfg st update now).1.reconnectAttempts = 0 ∧
    (onConnectionUpdate cfg st update now).1.isConnecting = false ∧
    (onConnectionUpdate cfg st update now).2 = [] ∧
    (handleConnectionUpdate update).all (fun a => !isReconnectAction a) = true := by
  obtain ⟨e, he, hsc⟩ : ∃ e, update.lastDisconnectError = some e ∧ e.statusCode = some 401 := by
    cases h : update.lastDisconnectError with
    | none => rw [h] at hcode; simp at hcode
    | some e => exact ⟨e, rfl, by rw [h] at hcode; simpa using hcode⟩
  refine ⟨?_, ?_, ?_, ?_, ?_⟩ <;>
    simp [onConnectionUpdate, hconn, hcode, resetReconnectState,
          handleConnectionUpdate, he, hsc, isReconnectAction]

/-- C5 witness: the 401 close event applied to a concrete state. -/
theorem close401_never_reconnects_witness :
    (onConnectionUpdate testCfg freshConnState close401 0).1.reconnectTimer = none ∧
    (onConnectionUpdate testCfg freshConnState close401 0).1.reconnectAttempts = 0 ∧
    (onConnectionUpdate testCfg freshConnState close401 0).1.isConnecting = false ∧
    (onConnectionUpdate testCfg freshConnState close401 0).2 = [] ∧
    (handleConnectionUpdate close401).all (fun a => !isReconnectAction a) = true :=
  close401_never_reconnects testCfg freshConnState close401 0 rfl rfl

/-- C6: the backoff delay is `min(baseDelay * multiplier ^ attemptCount,
maxDelay)` with the base delay selected by the service-unavailable failure
class; it is monotonically non-decreasing in the attempt count whenever the
multiplier is at least 1; an `open` event resets the attempt count to zero
(and cancels the timer); and every timer `scheduleReconnect` sets carries
exactly this delay at the post-increment attempt count. -/
theorem backoff_formula_monotone_and_reset (cfg : ReconnectConfig)
    (hm : 1 ≤ cfg.backoffMultiplier) (hb : 0 ≤ cfg.initialDelay)
    (hb5 : 0 ≤ cfg.error503InitialDelay) :
    (∀ (isE : Bool) (n : Nat), getReconnectDelay cfg isE n =
       min ((if isE then cfg.error503InitialDelay else cfg.initialDelay) *
            cfg.backoffMultiplier ^ n) cfg.maxDelay) ∧
    (∀ (isE : Bool) (n m : Nat), n ≤ m →
       getReconnectDelay cfg isE n ≤ getReconnectDelay cfg isE m) ∧
    (∀ st update now, update.connection = some "open" →
       (onConnectionUpdate cfg st update now).1.reconnectAttempts = 0 ∧
       (onConnectionUpdate cfg st update now).1.reconnectTimer = none) ∧
    (∀ st reason sc now d,
       ConnAction.timerSet d ∈ (scheduleReconnect cfg st reason sc now).2 →
       d = getReconnectDelay cfg (sc == some 503)
             (scheduleReconnect cfg st reason sc now).1.reconnectAttempts) := by
  refine ⟨fun isE n => rfl, ?_, ?_, ?_⟩
  · intro isE n m hnm
    unfold getReconnectDelay
    apply min_le_min _ le_rfl
    apply mul_le_mul_of_nonneg_left (pow_le_pow_right₀ hm hnm)
    cases isE <;> simp [hb, hb5]
  · intro st update now hopen
    constructor <;> simp [onConnectionUpdate, hopen, resetReconnectState]
  · intro st reason sc now d hmem
    by_cases hic : st.isConnecting
    · simp [scheduleReconnect, hic] at hmem
    · by_cases hmax : st.reconnectAttempts ≥ getMaxRetries cfg (sc == some 503)
      · simp [scheduleReconnect, hic, hmax] at hmem
      · simp [scheduleReconnect, hic, hmax] at hmem ⊢
        rw [hmem]

/-- C6 witness: the four parts of `backoff_formula_monotone_and_reset`
instantiated at the concrete configuration. -/
theorem backoff_formula_monotone_and_reset_witness :
    (getReconnectDelay testCfg true 3 =
       min ((if true then testCfg.error503InitialDelay else testCfg.initialDelay) *
            testCfg.backoffMultiplier ^ 3) testCfg.maxDelay) ∧
    (getReconnectDelay testCfg false 1 ≤ getReconnectDelay testCfg false 4) ∧
    ((onConnectionUpdate testCfg freshConnState
        { qr := none, connection := some "open", lastDisconnectError := none } 7).1.reconnectAttempts = 0 ∧
     (onConnectionUpdate testCfg freshConnState
        { qr := none, connection := some "open", lastDisconnectError := none } 7).1.reconnectTimer = none) ∧
    (∀ d, ConnAction.timerSet d ∈ (scheduleReconnect testCfg freshConnState "r" (some 500) 0).2 →
       d = getReconnectDelay testCfg ((some 500 : Option Nat) == some 503)
             (scheduleReconnect testCfg freshConnState "r" (some 500) 0).1.reconnectAttempts) := by
  have h := backoff_formula_monotone_and_reset testCfg (by norm_num [testCfg])
    (by norm_num [testCfg]) (by norm_num [testCfg])
  exact ⟨h.1 true 3, h.2.1 false 1 4 (by norm_num), h.2.2.1 freshConnState _ 7 rfl,
         fun d => h.2.2.2 freshConnState "r" (some 500) 0 d⟩

/-- C8: a message whose origin differs from the configured authorized origin
creates no store record and triggers no queue publish. -/
theorem unauthorized_origin_no_record_no_publish
    (env : PipelineEnv) (msg : WMessage) (s : PState) (t : String)
    (h1 : env.targetGroupId = some t) (h2 : msg.key.remoteJid ≠ some t) :
    (processMessage env msg s).1.store = s.store ∧
    (processMessage env msg s).1.queue = s.queue := by
  have hjid : isAllowedGroup env.targetGroupId msg.key.remoteJid = false := by
    simp [isAllowedGroup, h1]
    exact h2
  unfold processMessage
  cases hb : msg.body with
  | none => exact ⟨rfl, rfl⟩
  | some body =>
    rcases hd : isDuplicateMessage s.cache
        (optShow msg.key.remoteJid ++ "_" ++ optShow msg.key.id) env.now with ⟨b, cache1⟩
    cases b
    · simp [hd, hjid]
    · simp [hd]

/-- C8 witness: Alice's link message arriving from a different conversation
leaves store and queue untouched. -/
theorem unauthorized_origin_no_record_no_publish_witness :
    (processMessage okEnv strangerMsg emptyState).1.store = emptyState.store ∧
    (processMessage okEnv strangerMsg emptyState).1.queue = emptyState.queue :=
  unauthorized_origin_no_record_no_publish okEnv strangerMsg emptyState "g@g.us"
    rfl (by decide)

/-! ### Per-message error containment (C9) -/

/-- The link path never lets an exception escape: save, publish and
mark-published failures are all caught inside it. -/
theorem processLink_no_escape (env : PipelineEnv) (msg : WMessage)
    (text pushName url : String) (s : PState) :
    (processLink env msg text pushName url s).2 = none := by
  unfold processLink
  cases hsv : saveVideoSuggestion env.saveFault env.findFails s.store
      { url := url, texto := text, sugeridoPor := pushName,
        messageId := msg.key.id.getD "", chatId := msg.key.remoteJid.getD "",
        timestamp := env.now, status := .pending } env.now <;>
    simp [hsv]

/-- The status branch only escapes when the fallback reply fails after the
primary path already failed. -/
theorem processStatusCommand_no_escape (env : PipelineEnv)
    (remoteJid : Option String) (s : PState)
    (h : ((env.statusFault.isSome || env.sendFails .statusReply) &&
          env.sendFails .statusFallback) = false) :
    (processStatusCommand env remoteJid s).2 = none := by
  unfold processStatusCommand
  cases hf : env.statusFault <;>
    by_cases h1 : env.sendFails .statusReply <;>
    by_cases h2 : env.sendFails .statusFallback <;>
    simp_all

/-- C9 (amended): every error in the link path (store write, queue publish,
mark-published, reactions, notifications) is caught at the per-message
boundary, and a batch none of whose messages can hit the status-fallback
escape is processed to the end with no exception; the one exception path the
code does have is the status-command `catch` block, whose fallback
`sock.sendMessage` is not wrapped (see the counterexample).
`handleMessagesUpsert` itself always returns the state of the aborted or
completed loop — it never rejects. -/
theorem pipeline_errors_contained_except_status_fallback :
    (∀ env msg s, statusEscapePossible env msg = false →
       (processMessage env msg s).2 = none) ∧
    (∀ (batch : List (PipelineEnv × WMessage)) (s : PState),
       (∀ p ∈ batch, statusEscapePossible p.1 p.2 = false) →
       (runBatch batch s).2 = none ∧
       handleMessagesUpsert batch s = (runBatch batch s).1) := by
  have hone : ∀ env msg s, statusEscapePossible env msg = false →
      (processMessage env msg s).2 = none := by
    intro env msg s hesc
    unfold processMessage
    cases hb : msg.body with
    | none => rfl
    | some body =>
      rcases hd : isDuplicateMessage s.cache
          (optShow msg.key.remoteJid ++ "_" ++ optShow msg.key.id) env.now with ⟨b, cache1⟩
      cases b
      · by_cases hall : isAllowedGroup env.targetGroupId msg.key.remoteJid
        · by_cases htxt : (jsTruthy body.conversation || body.extendedText.isSome) = true
          · by_cases hcmd : (strTrim (strLower (firstTruthy body.conversation (body.extendedText.bind fun a => a))) = "status" ∨
                strTrim (strLower (firstTruthy body.conversation (body.extendedText.bind fun a => a))) = "/status")
            · have hguard : ((env.statusFault.isSome || env.sendFails .statusReply) &&
                  env.sendFails .statusFallback) = false := by
                simp [statusEscapePossible, hb, htxt, hcmd] at hesc
                simpa using hesc
              simp [hd, hall, htxt, processTextMessage, hcmd,
                    processStatusCommand_no_escape env msg.key.remoteJid _ hguard]
            · cases hx : extractVideoUrl (firstTruthy body.conversation (body.extendedText.bind fun a => a)) with
              | none => simp [hd, hall, htxt, processTextMessage, hcmd, hx]
              | some url =>
                simp [hd, hall, htxt, processTextMessage, hcmd, hx, processLink_no_escape]
          · simp [hd, hall, htxt]
        · simp [hd, hall]
      · simp [hd]
  refine ⟨hone, ?_⟩
  intro batch
  induction batch with
  | nil => intro s _; exact ⟨rfl, rfl⟩
  | cons p ps ih =>
    intro s hall
    have hp := hall p (by simp)
    have hps : ∀ q ∈ ps, statusEscapePossible q.1 q.2 = false := fun q hq => hall q (by simp [hq])
    have h1 := hone p.1 p.2 s hp
    constructor
    · simp only [runBatch]
      rcases hpm : processMessage p.1 p.2 s with ⟨s1, e⟩
      rw [hpm] at h1; simp at h1; subst h1
      exact (ih s1 hps).1
    · rfl

/-- C9 witness: a message on which every collaborator fails and every send
rejects is still contained, and a batch mixing it with a status command
whose primary path fails (fallback healthy) runs to completion. -/
theorem pipeline_errors_contained_witness :
    (processMessage faultyEnv aliceMsg emptyState).2 = none ∧
    (runBatch [(faultyEnv, aliceMsg), (statusPrimaryFailEnv, statusMsg)] emptyState).2 = none :=
  ⟨pipeline_errors_contained_except_status_fallback.1 faultyEnv aliceMsg emptyState (by decide),
   (pipeline_errors_contained_except_status_fallback.2
      [(faultyEnv, aliceMsg), (statusPrimaryFailEnv, statusMsg)] emptyState (by decide)).1⟩

/-! ### Reconnection scheduling guarantees (C3) -/

/-- `scheduleReconnect` emits either nothing or exactly one timer. -/
theorem scheduleReconnect_actions_shape (cfg : ReconnectConfig) (st : ReconnectState)
    (reason : String) (sc : Option Nat) (now : Nat) :
    (scheduleReconnect cfg st reason sc now).2 = [] ∨
    ∃ d, (scheduleReconnect cfg st reason sc now).2 = [ConnAction.timerSet d] := by
  unfold scheduleReconnect
  by_cases hic : st.isConnecting
  · simp [hic]
  · by_cases hmax : st.reconnectAttempts ≥ getMaxRetries cfg (sc == some 503)
    · simp [hic, hmax]
    · simp [hic, hmax]

/-- C3 (amended): a schedule request while a connection attempt is in flight
is a no-op, and close causes 503, 500 and timeout only schedule (no
immediate reconnect); but a close whose cause is any other status code falls
through to the original `handleConnectionUpdate`, which fires an additional
immediate reconnect, so for those causes a single disconnect event produces
both a pending backoff timer and an immediate connection attempt (see the
counterexample). -/
theorem reconnect_guard_and_fallback_double_fire :
    (∀ (cfg : ReconnectConfig) (st : ReconnectState) reason sc now,
       st.isConnecting = true → scheduleReconnect cfg st reason sc now = (st, [])) ∧
    (∀ (cfg : ReconnectConfig) (st : ReconnectState) (update : ConnUpdate) now,
       update.connection = some "close" →
       (update.lastDisconnectError.bind (fun e => e.statusCode) = some 503 ∨
        update.lastDisconnectError.bind (fun e => e.statusCode) = some 500 ∨
        (errMsgHasTimeout update.lastDisconnectError = true ∧
          update.lastDisconnectError.bind (fun e => e.statusCode) ∉
            ([some 401, some 405, some 503, some 500] : List (Option Nat)))) →
       ConnAction.immediateConnect ∉ (onConnectionUpdate cfg st update now).2) ∧
    (∀ (cfg : ReconnectConfig) (st : ReconnectState) (update : ConnUpdate) now e,
       update.connection = some "close" → update.qr = none →
       update.lastDisconnectError = some e → e.isBoom = true →
       e.statusCode ≠ some 401 → e.statusCode ≠ some 405 →
       e.statusCode ≠ some 503 → e.statusCode ≠ some 500 →
       errMsgHasTimeout (some e) = false →
       st.isConnecting = false → st.reconnectAttempts < cfg.maxRetries →
       (onConnectionUpdate cfg st update now).2 =
         [ConnAction.timerSet (getReconnectDelay cfg false (st.reconnectAttempts + 1)),
          ConnAction.immediateConnect]) := by
  refine ⟨?_, ?_, ?_⟩
  · intro cfg st reason sc now hic
    simp [scheduleReconnect, hic]
  · intro cfg st update now hconn hcause
    have hsched : ∀ (st1 : ReconnectState) reason sc,
        ConnAction.immediateConnect ∉ (scheduleReconnect cfg st1 reason sc now).2 := by
      intro st1 reason sc
      rcases scheduleReconnect_actions_shape cfg st1 reason sc now with h | ⟨d, h⟩ <;> simp [h]
    rcases hcause with h503 | h500 | ⟨htmo, hnotin⟩
    · simp [onConnectionUpdate, hconn, h503, hsched]
    · simp [onConnectionUpdate, hconn, h500, hsched]
    · have h401 : update.lastDisconnectError.bind (fun e => e.statusCode) ≠ some 401 := by
        intro h; exact hnotin (by simp [h])
      have h405 : update.lastDisconnectError.bind (fun e => e.statusCode) ≠ some 405 := by
        intro h; exact hnotin (by simp [h])
      have h503n : update.lastDisconnectError.bind (fun e => e.statusCode) ≠ some 503 := by
        intro h; exact hnotin (by simp [h])
      have h500n : update.lastDisconnectError.bind (fun e => e.statusCode) ≠ some 500 := by
        intro h; exact hnotin (by simp [h])
      simp [onConnectionUpdate, hconn, htmo, h401, h405, h503n, h500n, hsched]
  · intro cfg st update now e hconn hqr herr hboom h401 h405 h503 h500 htmo hic hlt
    have hnmax : ¬ (st.reconnectAttempts ≥ getMaxRetries cfg false) := by
      simp [getMaxRetries]; omega
    have hle : ¬ (cfg.maxRetries ≤ st.reconnectAttempts) := by omega
    simp [onConnectionUpdate, hconn, herr, h401, h405, h503, h500, htmo,
          scheduleReconnect, hic, handleConnectionUpdate, hqr, jsTruthy, hboom,
          getMaxRetries, hnmax, hle, getReconnectDelay]

/-- C3 witness: the three parts of
`reconnect_guard_and_fallback_double_fire` at concrete states and events. -/
theorem reconnect_guard_and_fallback_double_fire_witness :
    (scheduleReconnect testCfg stInFlight "Erro 408" (some 408) 0 = (stInFlight, [])) ∧
    (ConnAction.immediateConnect ∉ (onConnectionUpdate testCfg freshConnState close503 0).2) ∧
    ((onConnectionUpdate testCfg freshConnState close408 0).2 =
      [ConnAction.timerSet (getReconnectDelay testCfg false (freshConnState.reconnectAttempts + 1)),
       ConnAction.immediateConnect]) :=
  ⟨reconnect_guard_and_fallback_double_fire.1 testCfg stInFlight "Erro 408" (some 408) 0 rfl,
   reconnect_guard_and_fallback_double_fire.2.1 testCfg freshConnState close503 0 rfl
     (Or.inl rfl),
   reconnect_guard_and_fallback_double_fire.2.2 testCfg freshConnState close408 0
     { isBoom := true, statusCode := some 408, message := "Connection was lost" }
     rfl rfl rfl rfl (by decide) (by decide) (by decide) (by decide) (by decide)
     rfl (by decide)⟩

/-! ### Store idempotency (C7) -/

/-- C7: on a duplicate-key violation with the pre-existing document
retrievable, `saveVideoSuggestion` returns that document and leaves the
store unchanged; any other failure is rethrown as the classified
human-readable message, creating no record; and the classifier always
returns one of its five human-readable causes. -/
theorem save_duplicate_returns_existing_else_classified
    (store : Store) (data : SaveData) (now : Nat) :
    (∀ ex, store.find? (fun d => d.messageId == data.messageId) = some ex →
       saveVideoSuggestion none false store data now = .ok ex store) ∧
    (∀ rawErr, saveVideoSuggestion (some rawErr) false store data now =
       .err (getMongoErrorMessage rawErr) store) ∧
    (∀ s : String,
       getMongoErrorMessage s =
         "🔴 [MONGODB] Erro de certificado SSL/TLS ao conectar com MongoDB Atlas. Verifique: 1) Conexão com internet, 2) IP autorizado no Atlas, 3) Certificados do sistema" ∨
       getMongoErrorMessage s =
         "🔴 [MONGODB] Erro de autenticação. Verifique usuário e senha no .env" ∨
       getMongoErrorMessage s =
         "🔴 [MONGODB] Erro de rede ao conectar com MongoDB. Verifique conexão com internet" ∨
       getMongoErrorMessage s =
         "🔴 [MONGODB] Nenhum servidor MongoDB disponível. Verifique: 1) String de conexão, 2) IP autorizado no Atlas, 3) Cluster ativo" ∨
       getMongoErrorMessage s = "🔴 [MONGODB] Erro desconhecido: " ++ strTake s 200) := by
  refine ⟨?_, fun rawErr => rfl, ?_⟩
  · intro ex hfind
    have hmem : ex ∈ store := List.mem_of_find?_eq_some hfind
    have hpred := List.find?_some hfind
    have hany : store.any (fun d => d.messageId == data.messageId) = true := by
      simp only [List.any_eq_true]
      exact ⟨ex, hmem, hpred⟩
    simp [saveVideoSuggestion, insertOne, hany, hfind]
  · intro s
    unfold getMongoErrorMessage
    split_ifs <;> simp

/-- C7 witness: a colliding save returns the stored document, an injected
network failure is rethrown classified, and the classifier output at a TLS
error string is among the five causes. -/
theorem save_duplicate_returns_existing_else_classified_witness :
    (saveVideoSuggestion none false [existingDoc] dupData 900 =
       .ok existingDoc [existingDoc]) ∧
    (saveVideoSuggestion (some "ETIMEDOUT while connecting") false [] dupData 900 =
       .err (getMongoErrorMessage "ETIMEDOUT while connecting") []) ∧
    (getMongoErrorMessage "tlsv1 alert internal error" =
         "🔴 [MONGODB] Erro de certificado SSL/TLS ao conectar com MongoDB Atlas. Verifique: 1) Conexão com internet, 2) IP autorizado no Atlas, 3) Certificados do sistema" ∨
       getMongoErrorMessage "tlsv1 alert internal error" =
         "🔴 [MONGODB] Erro de autenticação. Verifique usuário e senha no .env" ∨
       getMongoErrorMessage "tlsv1 alert internal error" =
         "🔴 [MONGODB] Erro de rede ao conectar com MongoDB. Verifique conexão com internet" ∨
       getMongoErrorMessage "tlsv1 alert internal error" =
         "🔴 [MONGODB] Nenhum servidor MongoDB disponível. Verifique: 1) String de conexão, 2) IP autorizado no Atlas, 3) Cluster ativo" ∨
       getMongoErrorMessage "tlsv1 alert internal error" =
         "🔴 [MONGODB] Erro desconhecido: " ++ strTake "tlsv1 alert internal error" 200) :=
  ⟨(save_duplicate_returns_existing_else_classified [existingDoc] dupData 900).1
      existingDoc (by decide),
   (save_duplicate_returns_existing_else_classified [] dupData 900).2.1
      "ETIMEDOUT while connecting",
   (save_duplicate_returns_existing_else_classified [] dupData 900).2.2
      "tlsv1 alert internal error"⟩

/-! ### URL extraction (C10) -/

/-- The generic fallback pattern matches at an `http://` occurrence followed
by a non-whitespace character. -/
theorem matchGenericUrl_http (c : Char) (rest : List Char) (h : jsSpace c = false) :
    matchGenericUrl ("http://".data ++ c :: rest) =
      some (rest.dropWhile (fun x => !jsSpace x)) := by
  have hs : matchHttpScheme ('h' :: 't' :: 't' :: 'p' :: ':' :: '/' :: '/' :: c :: rest) =
      some (c :: rest) := rfl
  simp [matchGenericUrl, hs, classPlus, h]

/-- The generic fallback pattern matches at an `https://` occurrence
followed by a non-whitespace character. -/
theorem matchGenericUrl_https (c : Char) (rest : List Char) (h : jsSpace c = false) :
    matchGenericUrl ("https://".data ++ c :: rest) =
      some (rest.dropWhile (fun x => !jsSpace x)) := by
  have hs : matchHttpScheme ('h' :: 't' :: 't' :: 'p' :: 's' :: ':' :: '/' :: '/' :: c :: rest) =
      some (c :: rest) := rfl
  simp [matchGenericUrl, hs, classPlus, h]

/-- If a matcher succeeds at some position, the leftmost scan succeeds. -/
theorem findFirstFrom_isSome (m : List Char → Option (List Char))
    (pre cs : List Char) (h : (m cs).isSome = true) :
    (findFirstFrom m (pre ++ cs)).isSome = true := by
  induction pre with
  | nil =>
    cases cs with
    | nil => simpa [findFirstFrom]
    | cons c rest =>
      rcases ho : m (c :: rest) with _ | r
      · rw [ho] at h; simp at h
      · simp [findFirstFrom, ho]
  | cons p pre ih =>
    rcases ho : m (p :: (pre ++ cs)) with _ | r
    · simpa [findFirstFrom, ho] using ih
    · simp [findFirstFrom, ho]

/-- If the last (generic) pattern has a match, `extractVideoUrl`'s pattern
loop returns a result. -/
theorem extractGo_isSome_of_generic (cs : List Char)
    (h : (findFirstFrom matchGenericUrl cs).isSome = true) :
    (extractGo urlMatchers cs).isSome = true := by
  simp only [urlMatchers, extractGo]
  rcases h1 : findFirstFrom matchYoutubeShorts cs with _ | m1 <;> [skip; simp]
  rcases h2 : findFirstFrom matchYoutubeWatch cs with _ | m2 <;> [skip; simp]
  rcases h3 : findFirstFrom matchTiktok cs with _ | m3 <;> [skip; simp]
  rcases h4 : findFirstFrom matchInstagram cs with _ | m4 <;> [skip; simp]
  rcases h5 : findFirstFrom matchFacebook cs with _ | m5 <;> [skip; simp]
  rcases h6 : findFirstFrom matchTwitter cs with _ | m6 <;> [skip; simp]
  rcases h7 : findFirstFrom matchGenericUrl cs with _ | m7
  · rw [h7] at h; simp at h
  · simp

/-- The punctuation trim removes at most one trailing character. -/
theorem stripTrailingPunct_cases (v : List Char) :
    stripTrailingPunct v = v ∨
    ∃ p, isTrailPunct p = true ∧ v = stripTrailingPunct v ++ [p] := by
  unfold stripTrailingPunct
  rcases hl : v.getLast? with _ | c
  · exact Or.inl rfl
  · by_cases hp : isTrailPunct c = true
    · refine Or.inr ⟨c, hp, ?_⟩
      simp [hp]
      have hne : v ≠ [] := by rintro rfl; simp at hl
      calc v = v.dropLast ++ [v.getLast hne] := by rw [List.dropLast_append_getLast]
      _ = v.dropLast ++ [c] := by
          congr 1
          simp [List.getLast?_eq_getLast v hne] at hl
          simp [hl]
    · simp [hp]

/-- A successful `extractVideoUrl` run is the punctuation-trimmed leftmost
match of one of the seven patterns. -/
theorem extractGo_some_inv (ms : List (List Char → Option (List Char)))
    (cs : List Char) (u : String) (hu : extractGo ms cs = some u) :
    ∃ m mt, mt ∈ ms ∧ findFirstFrom mt cs = some m ∧
      u = String.mk (stripTrailingPunct m) := by
  induction ms with
  | nil => simp [extractGo] at hu
  | cons mt ms ih =>
    rw [extractGo] at hu
    rcases hf : findFirstFrom mt cs with _ | m
    · rw [hf] at hu
      rcases ih hu with ⟨m, mt2, hmem, hfind, hu2⟩
      exact ⟨m, mt2, by simp [hmem], hfind, hu2⟩
    · rw [hf] at hu
      simp at hu
      exact ⟨m, mt, by simp, hf, hu.symm⟩

/-- C10: for every text containing `http://` or `https://` followed by at
least one non-whitespace character, `extractVideoUrl` returns a URL (the
final matcher is a generic URL pattern, so any site qualifies), and the
returned value is the leftmost match of the first succeeding pattern with at
most one trailing punctuation character (`.`, `,`, `!`, `?`, `;`)
stripped. -/
theorem extract_url_from_http_text_and_strip (text : String)
    (h : ∃ pre c rest, jsSpace c = false ∧
      (text.data = pre ++ ("http://".data ++ c :: rest) ∨
       text.data = pre ++ ("https://".data ++ c :: rest))) :
    (extractVideoUrl text).isSome = true ∧
    (∀ u, extractVideoUrl text = some u →
      ∃ m, (∃ mt, mt ∈ urlMatchers ∧ findFirstFrom mt text.data = some m) ∧
        u.data = stripTrailingPunct m ∧
        (m = u.data ∨ ∃ p, isTrailPunct p = true ∧ m = u.data ++ [p])) := by
  constructor
  · rcases h with ⟨pre, c, rest, hns, hcase | hcase⟩
    · rw [extractVideoUrl, hcase]
      apply extractGo_isSome_of_generic
      apply findFirstFrom_isSome
      rw [matchGenericUrl_http c rest hns]; rfl
    · rw [extractVideoUrl, hcase]
      apply extractGo_isSome_of_generic
      apply findFirstFrom_isSome
      rw [matchGenericUrl_https c rest hns]; rfl
  · intro u hu
    rcases extractGo_some_inv urlMatchers text.data u hu with ⟨m, mt, hmem, hfind, hueq⟩
    refine ⟨m, ⟨mt, hmem, hfind⟩, by rw [hueq], ?_⟩
    rcases stripTrailingPunct_cases m with hc | ⟨p, hp, hc⟩
    · left; rw [hueq]; exact hc.symm
    · right; exact ⟨p, hp, by rw [hueq]; exact hc⟩

/-- C10 witness: the end-to-end scenario text instantiates the theorem with
`pre = "check this out "`, `c = 'y'`. -/
theorem extract_url_from_http_text_and_strip_witness :
    (extractVideoUrl "check this out https://youtu.be/abc123 !").isSome = true ∧
    (∀ u, extractVideoUrl "check this out https://youtu.be/abc123 !" = some u →
      ∃ m, (∃ mt, mt ∈ urlMatchers ∧
          findFirstFrom mt "check this out https://youtu.be/abc123 !".data = some m) ∧
        u.data = stripTrailingPunct m ∧
        (m = u.data ∨ ∃ p, isTrailPunct p = true ∧ m = u.data ++ [p])) :=
  extract_url_from_http_text_and_strip "check this out https://youtu.be/abc123 !"
    ⟨"check this out ".data, 'y', "outu.be/abc123 !".data, by decide, Or.inr (by decide)⟩

/-- C1: the claim states that when the durable write succeeds and the queue
publish fails, the stored record keeps `publishedToQueue = false` and stays
available for replay.  The code violates this: step 3 (`markAsPublished`)
stands after the publish `try/catch` unconditionally, so on a publish
failure the record is still flipped to `publishedToQueue = true` with a
`publishedAt` timestamp although the queue received nothing, and the
`--not-published` replay filter no longer finds it — contradicting the
code's own comment that the replay can pick the record up later.  The
success reaction is still sent, as the claim says.  This theorem evaluates
the handler at the failing input. -/
theorem markPublished_runs_despite_publish_failure :
    (processMessage publishFailEnv aliceMsg emptyState).2 = none ∧
    (processMessage publishFailEnv aliceMsg emptyState).1.queue = [] ∧
    ((processMessage publishFailEnv aliceMsg emptyState).1.store.map
      (fun d => (d.messageId, d.publishedToQueue, d.publishedAt))) =
      [("m1", true, some 1000)] ∧
    Effect.sentReact "g@g.us" "✅" aliceMsg.key ∈
      (processMessage publishFailEnv aliceMsg emptyState).1.effects ∧
    replayNotPublished (processMessage publishFailEnv aliceMsg emptyState).1.store = [] := by
  decide

/-- C2 counterexample: in the fault-free end-to-end scenario exactly one
payload is published, its serialized field list is `url`, `texto`,
`sugeridoPor`, and no published payload carries a `sourceMessageId` field —
refuting the claim that every publish payload contains `sourceMessageId`. -/
theorem publish_payload_has_no_sourceMessageId :
    (processMessage okEnv aliceMsg emptyState).1.queue =
      [[("url", "https://youtu.be/abc123"),
        ("texto", "check this out https://youtu.be/abc123 !"),
        ("sugeridoPor", "Alice")]] ∧
    ∀ p ∈ (processMessage okEnv aliceMsg emptyState).1.queue,
      "sourceMessageId" ∉ p.map Prod.fst := by
  decide

/-- C3 counterexample: a single close event with a generic Boom cause
(status 408, no timeout text) both schedules a backoff reconnect (the timer
is pending and `isConnecting` is set) and fires the fallback handler's
immediate `reconnectCallback()` — refuting the claim that no single
disconnect event can produce both. -/
theorem generic_close_fires_scheduled_and_immediate_reconnect :
    (onConnectionUpdate testCfg freshConnState close408 0).2 =
      [ConnAction.timerSet (getReconnectDelay testCfg false 1),
       ConnAction.immediateConnect] ∧
    (onConnectionUpdate testCfg freshConnState close408 0).1.reconnectTimer =
      some { delay := getReconnectDelay testCfg false 1, statusCode := some 408 } ∧
    (onConnectionUpdate testCfg freshConnState close408 0).1.isConnecting = true := by
  refine ⟨?_, ?_, ?_⟩ <;>
    simp +decide [onConnectionUpdate, scheduleReconnect, handleConnectionUpdate,
      getMaxRetries, logErrorStats, close408, freshConnState, testCfg,
      errMsgHasTimeout, jsTruthy, statusCodeText, resetReconnectState]

/-- C4 counterexample: an entry recorded at t = 250000 ms has expired by
t = 580000 ms (age 330000 ms > 5 min); the periodic cleanups at 60000,
120000, ..., 540000 ms all retained it (it was younger than the window at
each of them) and the next cleanup has not yet fired, so the redelivered
message at t = 580000 ms is still suppressed — refuting the claim that a
redelivery after expiry is reprocessed (`isDuplicateMessage` tests presence,
not age). -/
theorem expired_entry_still_suppresses_before_cleanup :
    (580000 - 250000 > CACHE_DURATION) ∧
    ((List.range 9).foldl (fun c i => cleanupCache c ((i + 1) * 60000))
        [("g@g.us_m1", 250000)] = [("g@g.us_m1", 250000)]) ∧
    (isDuplicateMessage [("g@g.us_m1", 250000)] "g@g.us_m1" 580000).1 = true := by
  decide

/-- C9 counterexample: a two-message batch whose first message is a status
command on which `getSystemStatus` rejects and the fallback reply also
rejects, followed by a healthy link message: the exception escapes the
per-message boundary and aborts the loop, so the second message is never
processed (no record, no publish) although alone it would create a record;
`handleMessagesUpsert` itself still returns normally through its outer
`catch`. -/
theorem status_fallback_send_failure_aborts_batch :
    (runBatch [(statusFailEnv, statusMsg), (okEnv, aliceMsg2)] emptyState).2 =
      some "status query failed" ∧
    (handleMessagesUpsert [(statusFailEnv, statusMsg), (okEnv, aliceMsg2)]
      emptyState).store = [] ∧
    (handleMessagesUpsert [(statusFailEnv, statusMsg), (okEnv, aliceMsg2)]
      emptyState).queue = [] ∧
    ((processMessage okEnv aliceMsg2 emptyState).1.store.map
      (fun d => d.messageId)) = ["m2"] := by
  decide

end TripVideoQueue
